import Mathlib

/-!
Verification development for a small CRM web application.

The application tracks contacts, logs outbound messages, manages
role-gated user accounts, and supports deferred/recurring email sends.
This file gives a shallow embedding of the data model
(Contact, Message, User, ScheduledEmail), the notification senders
(send_email, send_sms), the deferred-send scheduler
(schedule_email_job's timer body), and the form-handling routes
(create_contact, edit_contact, send_message_route, the role gate and
the startup bootstrap), together with theorems about them.

Conventions of the embedding:
- datetimes are abstract timestamps in seconds (Nat); one day is 86400 s;
- Python float values are modelled as Rat (the claims do not depend on
  binary floating-point rounding, only on parse success and fallbacks);
- environment variables are Option String (None = unset);
- a Python function that can raise to its caller is modelled with
  Except, where Except.error stands for an uncaught exception;
- the outcome of an external transport call (SMTP session, SMS API) is
  passed in as a Bool parameter, since the code catches any transport
  exception and maps it to a boolean.
-/

namespace Crm

/-- Model of Python's default whitespace set for str.strip. -/
def isPySpace (c : Char) : Bool :=
  c == ' ' || c == '\t' || c == '\n' || c == '\r' || c == '\x0b' || c == '\x0c'

/-- Strip leading and trailing whitespace from a character list. -/
def stripChars (l : List Char) : List Char :=
  ((l.dropWhile isPySpace).reverse.dropWhile isPySpace).reverse

/-- Model of Python's str.strip(). -/
def pyStrip (s : String) : String :=
  String.mk (stripChars s.data)

/-- Model of Python's str.lower(). -/
def pyLower (s : String) : String :=
  String.mk (s.data.map Char.toLower)

/-- Model of Python's truthiness fallback `a or b` on strings:
the empty string is falsy. -/
def pyOr (a b : String) : String :=
  if a = "" then b else a

/-- Split a character list on a separator character (like str.split(sep)). -/
def splitOnChar (sep : Char) : List Char → List (List Char)
  | [] => [[]]
  | c :: rest =>
    let r := splitOnChar sep rest
    if c == sep then [] :: r
    else
      match r with
      | [] => [[c]]
      | h :: t => (c :: h) :: t

/-- Nonempty and all decimal digits. -/
def allDigits (l : List Char) : Bool :=
  !l.isEmpty && l.all Char.isDigit

/-- Numeric value of a digit list. -/
def natOfDigits (l : List Char) : Nat :=
  l.foldl (fun a c => a * 10 + (c.toNat - 48)) 0

/-- Model of Python's int(str) on a stripped character list: an optional
sign followed by decimal digits; anything else raises ValueError,
modelled as none.  (Python also allows digit-group underscores; the
claims do not exercise them.) -/
def pyIntChars : List Char → Option Int
  | '-' :: rest => if allDigits rest then some (-(natOfDigits rest : Int)) else none
  | '+' :: rest => if allDigits rest then some (natOfDigits rest : Int) else none
  | l => if allDigits l then some (natOfDigits l : Int) else none

/-- Model of Python's int(str): strips whitespace, then parses an optional
sign and decimal digits; none models a ValueError. -/
def pyInt (s : String) : Option Int :=
  pyIntChars (stripChars s.data)

/-- Ten to an integer power, as a rational. -/
def ratPow10 (e : Int) : Rat :=
  if 0 ≤ e then (10 : Rat) ^ e.toNat else 1 / (10 : Rat) ^ (-e).toNat

/-- Unsigned decimal mantissa `digits[.digits]`, `.digits` or `digits.`
(at least one digit overall), as a rational. -/
def pyFracChars (m : List Char) : Option Rat :=
  match splitOnChar '.' m with
  | [a] => if allDigits a then some ((natOfDigits a : Nat) : Rat) else none
  | [a, b] =>
    if a.isEmpty && b.isEmpty then none
    else if (a.isEmpty || allDigits a) && (b.isEmpty || allDigits b) then
      some (((natOfDigits (a ++ b) : Nat) : Rat) / (10 : Rat) ^ b.length)
    else none
  | _ => none

/-- Signed decimal mantissa. -/
def pySignedFrac : List Char → Option Rat
  | '-' :: r => (pyFracChars r).map Neg.neg
  | '+' :: r => pyFracChars r
  | m => pyFracChars m

/-- Mantissa with optional exponent part `e<int>` (input already lowercased). -/
def pyFloatChars (t : List Char) : Option Rat :=
  match splitOnChar 'e' t with
  | [m] => pySignedFrac m
  | [m, ex] =>
    match pySignedFrac m, pyIntChars ex with
    | some mv, some ev => some (mv * ratPow10 ev)
    | _, _ => none
  | _ => none

/-- Model of Python's float(str): strips whitespace, lowercases, then
parses `[sign]digits[.digits][e[sign]digits]`; none models a ValueError.
(The special values inf/infinity/nan have no rational counterpart and
are outside the modelled range; the claims do not exercise them.) -/
def pyFloat (s : String) : Option Rat :=
  pyFloatChars ((stripChars s.data).map Char.toLower)

/-- Date part `YYYY-MM-DD` of an ISO 8601 string, as abstract seconds.
Modelled after the standard library's datetime.fromisoformat; the
numeric encoding of a date is abstract (claims only branch on parse
success or failure). -/
def parseDateChars (d : List Char) : Option Nat :=
  match splitOnChar '-' d with
  | [y, m, dd] =>
    if y.length = 4 ∧ allDigits y ∧ m.length = 2 ∧ allDigits m ∧
        dd.length = 2 ∧ allDigits dd then
      let mn := natOfDigits m
      let dn := natOfDigits dd
      if 1 ≤ mn ∧ mn ≤ 12 ∧ 1 ≤ dn ∧ dn ≤ 31 then
        some (((natOfDigits y) * 372 + mn * 31 + dn) * 86400)
      else none
    else none
  | _ => none

/-- Time part `HH:MM[:SS]` of an ISO 8601 string, in seconds. -/
def parseTimeChars (t : List Char) : Option Nat :=
  match splitOnChar ':' t with
  | [h, mi] =>
    if h.length = 2 ∧ allDigits h ∧ mi.length = 2 ∧ allDigits mi ∧
        natOfDigits h < 24 ∧ natOfDigits mi < 60 then
      some (natOfDigits h * 3600 + natOfDigits mi * 60)
    else none
  | [h, mi, se] =>
    if h.length = 2 ∧ allDigits h ∧ mi.length = 2 ∧ allDigits mi ∧
        se.length = 2 ∧ allDigits se ∧
        natOfDigits h < 24 ∧ natOfDigits mi < 60 ∧ natOfDigits se < 60 then
      some (natOfDigits h * 3600 + natOfDigits mi * 60 + natOfDigits se)
    else none
  | _ => none

/-- Model of datetime.fromisoformat restricted to
`YYYY-MM-DD[THH:MM[:SS]]`; none models a ValueError. -/
def fromisoformat (s : String) : Option Nat :=
  match splitOnChar 'T' s.data with
  | [d] => parseDateChars d
  | [d, t] =>
    match parseDateChars d, parseTimeChars t with
    | some dv, some tv => some (dv + tv)
    | _, _ => none
  | _ => none

/-! ## Data model -/

/-- A tracked person/organization in the sales pipeline.
Mirrors the Contact table: name, unique email, phone, company, address,
notes, and five pipeline metrics.  Python Float columns are modelled as
Rat, the Integer rating as Int. -/
structure Contact where
  id : Nat
  first_name : String
  last_name : String
  email : String
  phone : String
  company : String
  address : String
  notes : String
  potential_spend : Rat
  accepted_spend : Rat
  billed_amount : Rat
  received_amount : Rat
  rating : Int

/-- Immutable log entry of one outbound communication. -/
structure Message where
  id : Nat
  contact_id : Nat
  channel : String
  subject : Option String
  body : String

/-- Application user: username, password hash and role. -/
structure User where
  id : Nat
  username : String
  password_hash : String
  role : String

/-- An email to be sent at a future time, optionally recurring daily
until end_at.  Timestamps are abstract seconds. -/
structure ScheduledEmail where
  id : Nat
  contact_id : Nat
  subject : String
  body : String
  start_at : Nat
  end_at : Option Nat
  recurring : Bool
  sent_at : Option Nat

/-- Seconds in one day (timedelta(days=1)). -/
def daySeconds : Nat := 86400

/-- Model of werkzeug's generate_password_hash, abstracted to an
injective tagging of the plaintext. -/
def generate_password_hash (password : String) : String :=
  "pbkdf2-sha256$" ++ password

/-! ## Notification senders -/

/-- SMTP-related environment variables; none means the variable is unset. -/
structure SmtpEnv where
  smtp_server : Option String
  smtp_port : Option String
  smtp_username : Option String
  smtp_password : Option String

/-- Python truthiness test for `os.environ.get(...)`: None and the empty
string are both falsy. -/
def envFalsy (v : Option String) : Bool :=
  v.getD "" == ""

/-- The port computation `int(os.environ.get('SMTP_PORT', 587))`: an
unset variable yields the int default 587, a set variable is parsed by
int(), whose ValueError (none) escapes before any try/except. -/
def smtpPortOf (env : SmtpEnv) : Option Int :=
  match env.smtp_port with
  | none => some 587
  | some s => pyInt s

/-- Model of send_email(to_address, subject, body).  `transportOk` is the
outcome of the SMTP session (the code catches any exception from it and
returns False).  `Except.error` models an exception that escapes to the
caller: the only such path is int() on a malformed SMTP_PORT, which runs
before the missing-configuration check and outside the try block. -/
def send_email (env : SmtpEnv) (transportOk : Bool)
    (to_address subject body : String) : Except String Bool :=
  match smtpPortOf env with
  | none => Except.error "ValueError: invalid literal for int() with base 10"
  | some _ =>
    if envFalsy env.smtp_server || envFalsy env.smtp_username ||
        envFalsy env.smtp_password then
      Except.ok false
    else
      Except.ok transportOk

/-- Twilio-related environment variables. -/
structure SmsEnv where
  account_sid : Option String
  auth_token : Option String
  phone_number : Option String

/-- Model of send_sms(to_number, body).  `libInstalled` models the
guarded import of the client library, `transportOk` the API call outcome
(any exception is caught and mapped to False).  Every path returns ok:
the function has no exception path to the caller. -/
def send_sms (env : SmsEnv) (libInstalled transportOk : Bool)
    (to_number body : String) : Except String Bool :=
  if envFalsy env.account_sid || envFalsy env.auth_token ||
      envFalsy env.phone_number then
    Except.ok false
  else if !libInstalled then
    Except.ok false
  else
    Except.ok transportOk

/-! ## Deferred-send scheduler -/

/-- Result of one execution of the timer body `_send_and_reschedule`
inside schedule_email_job. -/
structure FireResult where
  email : ScheduledEmail
  invokedSend : Bool
  rearmed : Bool

/-- One firing of the scheduler timer for a ScheduledEmail, at current
time `now` (datetime.utcnow()).  `contacts` is the Contact table at fire
time, `sendResult` the boolean returned by send_email when it is
invoked.  Mirrors `_send_and_reschedule`: if the referenced contact
exists, send the email and overwrite sent_at with now (regardless of
the send's boolean result); then, if recurring and the next day is
within end_at (or end_at is null), advance start_at by one day and
re-arm the timer; otherwise the entry becomes terminal. -/
def schedule_email_fire (contacts : List Contact) (s : ScheduledEmail)
    (sendResult : Bool) (now : Nat) : FireResult :=
  let found := contacts.find? (fun c => c.id == s.contact_id)
  let s1 := match found with
    | some _ => { s with sent_at := some now }
    | none => s
  if s1.recurring then
    let next := s1.start_at + daySeconds
    let withinEnd := match s1.end_at with
      | none => true
      | some e => decide (next ≤ e)
    if withinEnd then
      { email := { s1 with start_at := next },
        invokedSend := found.isSome, rearmed := true }
    else
      { email := s1, invokedSend := found.isSome, rearmed := false }
  else
    { email := s1, invokedSend := found.isSome, rearmed := false }

/-! ## Access control gate -/

/-- Outcome of the login_required / role_required decorator pair. -/
inductive GateResult where
  | redirectLogin
  | redirectIndex
  | allowed
deriving DecidableEq

/-- Model of role_required(*roles) composed under login_required: an
anonymous user is redirected to the login page; an authenticated user
whose lowercased role is not among the lowercased allowed roles gets a
flash and a redirect to the index (which itself redirects to the
contact list); otherwise the view runs. -/
def role_required (roles : List String) (user : Option User) : GateResult :=
  match user with
  | none => GateResult.redirectLogin
  | some u =>
    if (roles.map pyLower).contains (pyLower u.role) then GateResult.allowed
    else GateResult.redirectIndex

/-! ## Contact creation route -/

/-- Raw form fields of the contact form; none models an absent field. -/
structure ContactForm where
  first_name : Option String
  last_name : Option String
  email : Option String
  phone : Option String
  company : Option String
  address : Option String
  notes : Option String
  potential_spend : Option String
  accepted_spend : Option String
  billed_amount : Option String
  received_amount : Option String
  rating : Option String

/-- A text field in create/edit: `request.form.get(name, '').strip()`. -/
def formText (v : Option String) : String :=
  pyStrip (v.getD "")

/-- A pipeline field on create:
`float(request.form.get(name, '0') or 0)` with ValueError caught and
replaced by 0.0.  An absent field defaults to "0", an empty string is
falsy and replaced by the int 0, and a parse failure falls back to 0. -/
def createFloat (v : Option String) : Rat :=
  match v with
  | none => 0
  | some s => if s = "" then 0 else (pyFloat s).getD 0

/-- The rating field on create: `int(request.form.get('rating','0') or 0)`
with ValueError caught and replaced by 0. -/
def createInt (v : Option String) : Int :=
  match v with
  | none => 0
  | some s => if s = "" then 0 else (pyInt s).getD 0

/-- Outcome of a POST to /contact/new past the gate: both rejection
branches flash a message and re-render the form. -/
inductive CreateOutcome where
  | missingFields
  | duplicateEmail
  | created
deriving DecidableEq

/-- The Contact row built by create_contact from the stripped form
values, pipeline values parsed defensively. -/
def newContactFromForm (f : ContactForm) (newId : Nat) : Contact :=
  { id := newId
    first_name := formText f.first_name
    last_name := formText f.last_name
    email := formText f.email
    phone := formText f.phone
    company := formText f.company
    address := formText f.address
    notes := formText f.notes
    potential_spend := createFloat f.potential_spend
    accepted_spend := createFloat f.accepted_spend
    billed_amount := createFloat f.billed_amount
    received_amount := createFloat f.received_amount
    rating := createInt f.rating }

/-- Model of the POST branch of create_contact (past the access gate):
validate required fields, reject a duplicate email
(`Contact.query.filter_by(email=email).first()`), then insert the new
contact.  Returns the outcome and the new Contact table; `newId` is the
autoincrement id. -/
def create_contact (db : List Contact) (f : ContactForm) (newId : Nat) :
    CreateOutcome × List Contact :=
  if formText f.first_name = "" ∨ formText f.last_name = "" ∨
      formText f.email = "" then
    (CreateOutcome.missingFields, db)
  else if db.any (fun c => c.email == formText f.email) then
    (CreateOutcome.duplicateEmail, db)
  else
    (CreateOutcome.created, db ++ [newContactFromForm f newId])

/-- Response of the /contact/new route including the access gate. -/
inductive CreateResponse where
  | redirectLogin
  | redirectIndex
  | page (o : CreateOutcome)
deriving DecidableEq

/-- The full /contact/new POST handler:
login_required ∘ role_required('master','management') ∘ create_contact. -/
def create_contact_route (user : Option User) (db : List Contact)
    (f : ContactForm) (newId : Nat) : CreateResponse × List Contact :=
  match role_required ["master", "management"] user with
  | GateResult.redirectLogin => (CreateResponse.redirectLogin, db)
  | GateResult.redirectIndex => (CreateResponse.redirectIndex, db)
  | GateResult.allowed =>
    let (o, db2) := create_contact db f newId
    (CreateResponse.page o, db2)

/-! ## Contact edit route -/

/-- A pipeline field on edit:
`float(request.form.get(name, contact.x) or contact.x)` inside
try/except-pass.  An absent field defaults to the prior float (float of
which is itself), an empty string is falsy and replaced by the prior,
and a ValueError leaves the field untouched. -/
def editFloat (v : Option String) (prior : Rat) : Rat :=
  match v with
  | none => prior
  | some s => if s = "" then prior else (pyFloat s).getD prior

/-- The rating field on edit, same pattern with int(). -/
def editInt (v : Option String) (prior : Int) : Int :=
  match v with
  | none => prior
  | some s => if s = "" then prior else (pyInt s).getD prior

/-- Model of the POST branch of edit_contact applied to the fetched
contact: text fields are overwritten with stripped form values
(default ''), numeric fields are updated defensively.  No duplicate
email check is performed here. -/
def edit_contact (c : Contact) (f : ContactForm) : Contact :=
  { c with
    first_name := formText f.first_name
    last_name := formText f.last_name
    email := formText f.email
    phone := formText f.phone
    company := formText f.company
    address := formText f.address
    notes := formText f.notes
    potential_spend := editFloat f.potential_spend c.potential_spend
    accepted_spend := editFloat f.accepted_spend c.accepted_spend
    billed_amount := editFloat f.billed_amount c.billed_amount
    received_amount := editFloat f.received_amount c.received_amount
    rating := editInt f.rating c.rating }

/-- The edit route at the table level: the row fetched by id is replaced
by its edited version and the session committed. -/
def edit_contact_db (db : List Contact) (contact_id : Nat)
    (f : ContactForm) : List Contact :=
  db.map (fun c => if c.id == contact_id then edit_contact c f else c)

/-- Pairwise distinctness of contact emails, as a boolean. -/
def emailsNodup : List Contact → Bool
  | [] => true
  | c :: rest => !(rest.any (fun d => d.email == c.email)) && emailsNodup rest

/-! ## Message route -/

/-- Raw form fields of the message form.  The channel field is read with
`request.form.get('channel')` (no default, no strip); the others default
to the empty string. -/
structure MessageForm where
  channel : Option String
  subject : Option String
  body : Option String
  send_test : Option String
  start_at : Option String
  end_at : Option String
  recurring : Option String

/-- Response of a POST to /message/new/<id>: either the form is
re-rendered with a flash, or the request redirects to the contact view. -/
inductive MsgResponse where
  | renderForm
  | redirectContact
deriving DecidableEq

/-- Observable effects of one POST to /message/new/<id>:
the response, the recipient passed to send_email (none if the email
sender was not invoked), the recipient passed to send_sms, the Message
rows added, and the ScheduledEmail rows added (with whether a timer was
armed for them via schedule_email_job). -/
structure MsgOutcome where
  response : MsgResponse
  emailTo : Option String
  smsTo : Option String
  newMessages : List Message
  newScheduled : List ScheduledEmail
  armedTimer : Bool

/-- Model of the POST branch of send_message_route for the fetched
contact.  `emailOk` and `smsOk` are the boolean results of send_email /
send_sms when invoked; `newId` is the autoincrement id for a created
row.  Mirrors the code's order: channel/body validation, then the test
branch, then the scheduling branch (start_at present and channel email),
then the immediate send. -/
def send_message_route (contact : Contact) (f : MessageForm)
    (emailOk smsOk : Bool) (newId : Nat) : MsgOutcome :=
  let channel := f.channel
  let subject := pyStrip (f.subject.getD "")
  let body := pyStrip (f.body.getD "")
  let is_test := f.send_test == some "1"
  let start_at_str := f.start_at.getD ""
  let end_at_str := f.end_at.getD ""
  let recurring := f.recurring.getD "" == "on"
  if (channel ≠ some "email" ∧ channel ≠ some "sms") ∨ body = "" then
    { response := MsgResponse.renderForm, emailTo := none, smsTo := none,
      newMessages := [], newScheduled := [], armedTimer := false }
  else if is_test then
    if channel = some "email" then
      if subject = "" then
        { response := MsgResponse.renderForm, emailTo := none, smsTo := none,
          newMessages := [], newScheduled := [], armedTimer := false }
      else
        { response := MsgResponse.redirectContact,
          emailTo := some contact.email, smsTo := none,
          newMessages := [], newScheduled := [], armedTimer := false }
    else
      { response := MsgResponse.redirectContact, emailTo := none,
        smsTo := some (pyOr contact.phone ""),
        newMessages := [], newScheduled := [], armedTimer := false }
  else if start_at_str ≠ "" ∧ channel = some "email" then
    match fromisoformat start_at_str with
    | none =>
      { response := MsgResponse.renderForm, emailTo := none, smsTo := none,
        newMessages := [], newScheduled := [], armedTimer := false }
    | some start_at =>
      let end_at? : Option (Option Nat) :=
        if end_at_str = "" then some none
        else match fromisoformat end_at_str with
          | none => none
          | some e => some (some e)
      match end_at? with
      | none =>
        { response := MsgResponse.renderForm, emailTo := none, smsTo := none,
          newMessages := [], newScheduled := [], armedTimer := false }
      | some end_at =>
        { response := MsgResponse.redirectContact, emailTo := none,
          smsTo := none, newMessages := [],
          newScheduled := [{
            id := newId
            contact_id := contact.id
            subject := pyOr subject ""
            body := body
            start_at := start_at
            end_at := end_at
            recurring := recurring
            sent_at := none }],
          armedTimer := true }
  else if channel = some "email" then
    if subject = "" then
      { response := MsgResponse.renderForm, emailTo := none, smsTo := none,
        newMessages := [], newScheduled := [], armedTimer := false }
    else
      { response := MsgResponse.redirectContact,
        emailTo := some contact.email, smsTo := none,
        newMessages :=
          if emailOk then
            [{ id := newId, contact_id := contact.id, channel := "email",
               subject := some subject, body := body }]
          else [],
        newScheduled := [], armedTimer := false }
  else
    { response := MsgResponse.redirectContact, emailTo := none,
      smsTo := some (pyOr contact.phone ""),
      newMessages :=
        if smsOk then
          [{ id := newId, contact_id := contact.id, channel := "sms",
             subject := none, body := body }]
        else [],
      newScheduled := [], armedTimer := false }

/-! ## Startup bootstrap -/

/-- Model of the bootstrap block in create_app: after create_all, if no
User row exists (`User.query.first() is None`), create a default master
user with username "admin" and password "admin123"; otherwise leave the
table unchanged. -/
def create_app_bootstrap (users : List User) : List User :=
  if users.isEmpty then
    users ++ [{
      id := 1
      username := "admin"
      password_hash := generate_password_hash "admin123"
      role := "master" }]
  else users

/-! ## Iterated firing -/

/-- The ScheduledEmail record after n consecutive firings of its timer.
`oks k` is the boolean send_email result and `nows k` the current time
at the (k+1)-st fire. -/
def fireIterate (contacts : List Contact) (oks : Nat → Bool)
    (nows : Nat → Nat) (s : ScheduledEmail) : Nat → ScheduledEmail
  | 0 => s
  | n + 1 =>
    (schedule_email_fire contacts (fireIterate contacts oks nows s n)
      (oks n) (nows n)).email

/-! ## Concrete sample values -/

/-- A concrete contact for concrete evaluations. -/
def sampleContact (id : Nat) (email phone : String) : Contact :=
  { id := id, first_name := "Ada", last_name := "Lovelace", email := email
    phone := phone, company := "Acme", address := "1 Main St", notes := ""
    potential_spend := 0, accepted_spend := 0, billed_amount := 0
    received_amount := 0, rating := 0 }

/-- A concrete user with a given role. -/
def sampleUser (role : String) : User :=
  { id := 7, username := "sam", password_hash := generate_password_hash "pw"
    role := role }

/-- A contact form with every field absent. -/
def emptyContactForm : ContactForm :=
  { first_name := none, last_name := none, email := none, phone := none
    company := none, address := none, notes := none, potential_spend := none
    accepted_spend := none, billed_amount := none, received_amount := none
    rating := none }

/-- A concrete scheduled email: recurring, no end time. -/
def sampleSched : ScheduledEmail :=
  { id := 3, contact_id := 1, subject := "hi", body := "check in"
    start_at := 1000, end_at := none, recurring := true, sent_at := none }

/-- An edit form whose numeric fields all carry non-parseable values. -/
def sampleEditForm : ContactForm :=
  { emptyContactForm with
    first_name := some "Ada", last_name := some "Lovelace"
    email := some "ada@acme.test"
    potential_spend := some "abc", accepted_spend := some "1.2.3"
    billed_amount := some "12x", received_amount := some "--5"
    rating := some "4.2" }

/-- An edit form that sets the email to another contact's email. -/
def dupEmailEditForm : ContactForm :=
  { emptyContactForm with
    first_name := some "Bob", last_name := some "Byrne"
    email := some "a@x.test" }

/-- A message form scheduling an email with an empty subject. -/
def emptySubjectScheduleForm : MessageForm :=
  { channel := some "email", subject := some "", body := some "hello"
    send_test := none, start_at := some "2025-01-02T03:04", end_at := none
    recurring := none }

/-- The outcome of posting the empty-subject scheduling form. -/
def emptySubjectScheduleOutcome : MsgOutcome :=
  send_message_route (sampleContact 1 "a@x.test" "+15550100")
    emptySubjectScheduleForm true true 7

/-- A concrete scheduled email whose end time is 36 hours after start. -/
def sampleSched36 : ScheduledEmail :=
  { sampleSched with end_at := some (1000 + 36 * 3600) }

/-- An SMTP environment whose SMTP_PORT variable is not an integer. -/
def badPortEnv : SmtpEnv :=
  { smtp_server := some "smtp.example.test", smtp_port := some "abc",
    smtp_username := some "user", smtp_password := some "pw" }

/-- An SMTP environment with a parseable port but no credentials. -/
def unconfiguredSmtpEnv : SmtpEnv :=
  { smtp_server := none, smtp_port := some "2525",
    smtp_username := none, smtp_password := none }

/-- An SMS environment with no credentials. -/
def unconfiguredSmsEnv : SmsEnv :=
  { account_sid := none, auth_token := none, phone_number := none }

/-- An immediate email message form with an empty subject. -/
def emailEmptySubjectForm : MessageForm :=
  { channel := some "email", subject := some "", body := some "hello",
    send_test := none, start_at := none, end_at := none, recurring := none }

/-- An immediate SMS message form. -/
def smsOnlyForm : MessageForm :=
  { channel := some "sms", subject := none, body := some "ping",
    send_test := none, start_at := none, end_at := none, recurring := none }

/-! ## Helper lemmas -/

/-- One fire with the contact present, recurring, and the next day within
end_at: sent_at is overwritten and the timer re-armed one day later. -/
theorem fire_found_within (contacts : List Contact) (s : ScheduledEmail)
    (ok : Bool) (now : Nat) (c : Contact) (e : Nat)
    (hfind : contacts.find? (fun d => d.id == s.contact_id) = some c)
    (hrec : s.recurring = true) (hend : s.end_at = some e)
    (hle : s.start_at + daySeconds ≤ e) :
    schedule_email_fire contacts s ok now =
      { email := { s with sent_at := some now, start_at := s.start_at + daySeconds },
        invokedSend := true, rearmed := true } := by
  simp [schedule_email_fire, hfind, hrec, hend, hle]

/-- One fire with the contact present, recurring, but the next day past
end_at: sent_at is overwritten and the entry becomes terminal. -/
theorem fire_found_beyond (contacts : List Contact) (s : ScheduledEmail)
    (ok : Bool) (now : Nat) (c : Contact) (e : Nat)
    (hfind : contacts.find? (fun d => d.id == s.contact_id) = some c)
    (hrec : s.recurring = true) (hend : s.end_at = some e)
    (hgt : ¬ s.start_at + daySeconds ≤ e) :
    schedule_email_fire contacts s ok now =
      { email := { s with sent_at := some now },
        invokedSend := true, rearmed := false } := by
  simp [schedule_email_fire, hfind, hrec, hend, hgt]

/-- A recurring entry with no end time always re-arms, keeping its
recurring flag and null end time and advancing start_at by one day. -/
theorem schedule_email_fire_rearms_no_end (contacts : List Contact)
    (s : ScheduledEmail) (ok : Bool) (now : Nat)
    (h1 : s.recurring = true) (h2 : s.end_at = none) :
    (schedule_email_fire contacts s ok now).rearmed = true ∧
    (schedule_email_fire contacts s ok now).email.recurring = true ∧
    (schedule_email_fire contacts s ok now).email.end_at = none ∧
    (schedule_email_fire contacts s ok now).email.start_at = s.start_at + daySeconds := by
  cases h : contacts.find? (fun c => c.id == s.contact_id) <;>
    simp [schedule_email_fire, h, h1, h2]

/-- Appending a contact whose email matches no existing row preserves
pairwise-distinct emails. -/
theorem emailsNodup_append_fresh (db : List Contact) (c : Contact)
    (h : emailsNodup db = true)
    (hf : db.any (fun d => d.email == c.email) = false) :
    emailsNodup (db ++ [c]) = true := by
  induction db with
  | nil => rfl
  | cons d rest ih =>
    simp [emailsNodup, List.any_cons] at h hf
    simp [emailsNodup, List.cons_append, List.any_append, List.any_cons]
    exact ⟨⟨h.1, fun hh => hf.1 hh.symm⟩,
      ih h.2 (by simp only [List.any_eq_false, beq_iff_eq]; exact hf.2)⟩

/-! ## Claim theorems -/

/-- C1: a recurring ScheduledEmail with start_at = T and
end_at = T + 36h, whose referenced contact exists, fires at T (the email
sender is invoked and sent_at recorded) and is re-armed for T + 24h; the
fire at T + 24h again invokes the sender and records sent_at, and then
the entry becomes terminal (no timer is re-armed for T + 48h), since
T + 48h exceeds end_at. -/
theorem scheduler_fires_at_T_and_next_day_then_terminal
    (contacts : List Contact) (s : ScheduledEmail) (T : Nat)
    (ok1 ok2 : Bool) (now1 now2 : Nat)
    (hrec : s.recurring = true) (hstart : s.start_at = T)
    (hend : s.end_at = some (T + 36 * 3600))
    (hc : (contacts.find? (fun c => c.id == s.contact_id)).isSome = true) :
    (schedule_email_fire contacts s ok1 now1).invokedSend = true ∧
    (schedule_email_fire contacts s ok1 now1).email.sent_at = some now1 ∧
    (schedule_email_fire contacts s ok1 now1).rearmed = true ∧
    (schedule_email_fire contacts s ok1 now1).email.start_at = T + daySeconds ∧
    (schedule_email_fire contacts
        (schedule_email_fire contacts s ok1 now1).email ok2 now2).invokedSend = true ∧
    (schedule_email_fire contacts
        (schedule_email_fire contacts s ok1 now1).email ok2 now2).email.sent_at = some now2 ∧
    (schedule_email_fire contacts
        (schedule_email_fire contacts s ok1 now1).email ok2 now2).rearmed = false := by
  obtain ⟨c, hfind⟩ := Option.isSome_iff_exists.mp hc
  have hle : s.start_at + daySeconds ≤ T + 36 * 3600 := by
    rw [hstart]; unfold daySeconds; omega
  have r1 := fire_found_within contacts s ok1 now1 c (T + 36 * 3600) hfind hrec hend hle
  set s2 : ScheduledEmail :=
    { s with sent_at := some now1, start_at := s.start_at + daySeconds } with hs2
  have hfind2 : contacts.find? (fun d => d.id == s2.contact_id) = some c := hfind
  have hrec2 : s2.recurring = true := hrec
  have hend2 : s2.end_at = some (T + 36 * 3600) := hend
  have hgt : ¬ s2.start_at + daySeconds ≤ T + 36 * 3600 := by
    show ¬ (s.start_at + daySeconds) + daySeconds ≤ T + 36 * 3600
    rw [hstart]; unfold daySeconds; omega
  have r2 := fire_found_beyond contacts s2 ok2 now2 c (T + 36 * 3600) hfind2 hrec2 hend2 hgt
  rw [r1]
  refine ⟨rfl, rfl, rfl, ?_, ?_, ?_, ?_⟩
  · show s.start_at + daySeconds = T + daySeconds
    rw [hstart]
  all_goals rw [r2]

/-- C1 witness: a concrete recurring schedule with start 1000 and end
1000 + 36h fires twice and then is terminal. -/
theorem scheduler_fires_at_T_and_next_day_then_terminal_witness :
    (schedule_email_fire [sampleContact 1 "a@x.test" ""] sampleSched36 false 1000).invokedSend = true ∧
    (schedule_email_fire [sampleContact 1 "a@x.test" ""] sampleSched36 false 1000).email.sent_at = some 1000 ∧
    (schedule_email_fire [sampleContact 1 "a@x.test" ""] sampleSched36 false 1000).rearmed = true ∧
    (schedule_email_fire [sampleContact 1 "a@x.test" ""] sampleSched36 false 1000).email.start_at = 1000 + daySeconds ∧
    (schedule_email_fire [sampleContact 1 "a@x.test" ""]
        (schedule_email_fire [sampleContact 1 "a@x.test" ""] sampleSched36 false 1000).email true 87400).invokedSend = true ∧
    (schedule_email_fire [sampleContact 1 "a@x.test" ""]
        (schedule_email_fire [sampleContact 1 "a@x.test" ""] sampleSched36 false 1000).email true 87400).email.sent_at = some 87400 ∧
    (schedule_email_fire [sampleContact 1 "a@x.test" ""]
        (schedule_email_fire [sampleContact 1 "a@x.test" ""] sampleSched36 false 1000).email true 87400).rearmed = false :=
  scheduler_fires_at_T_and_next_day_then_terminal
    [sampleContact 1 "a@x.test" ""] sampleSched36 1000 false true 1000 87400
    rfl rfl rfl (by decide)

/-- C2: a recurring ScheduledEmail with end_at = null is re-armed after
every fire: after n fires the entry is still recurring with null end
time, its start_at has advanced by exactly one day per fire, and the
next fire re-arms the timer again — the entry never becomes terminal. -/
theorem recurring_without_end_rearms_forever
    (contacts : List Contact) (oks : Nat → Bool) (nows : Nat → Nat)
    (s : ScheduledEmail) (hrec : s.recurring = true) (hend : s.end_at = none)
    (n : Nat) :
    (fireIterate contacts oks nows s n).recurring = true ∧
    (fireIterate contacts oks nows s n).end_at = none ∧
    (fireIterate contacts oks nows s n).start_at = s.start_at + n * daySeconds ∧
    (schedule_email_fire contacts (fireIterate contacts oks nows s n)
      (oks n) (nows n)).rearmed = true := by
  induction n with
  | zero =>
    exact ⟨hrec, hend, by simp [fireIterate],
      (schedule_email_fire_rearms_no_end contacts s (oks 0) (nows 0) hrec hend).1⟩
  | succ n ih =>
    obtain ⟨ih1, ih2, ih3, _⟩ := ih
    obtain ⟨_, p2, p3, p4⟩ :=
      schedule_email_fire_rearms_no_end contacts (fireIterate contacts oks nows s n)
        (oks n) (nows n) ih1 ih2
    have e1 : (fireIterate contacts oks nows s (n + 1)).recurring = true := by
      simpa [fireIterate] using p2
    have e2 : (fireIterate contacts oks nows s (n + 1)).end_at = none := by
      simpa [fireIterate] using p3
    refine ⟨e1, e2, ?_, ?_⟩
    · have e3 : (fireIterate contacts oks nows s (n + 1)).start_at =
          (fireIterate contacts oks nows s n).start_at + daySeconds := by
        simpa [fireIterate] using p4
      rw [e3, ih3]
      ring
    · exact (schedule_email_fire_rearms_no_end contacts
        (fireIterate contacts oks nows s (n + 1)) (oks (n + 1)) (nows (n + 1)) e1 e2).1

/-- C2 witness: the concrete recurring schedule with no end time, after
two fires, is still recurring with advanced start time and re-arms. -/
theorem recurring_without_end_rearms_forever_witness :
    (fireIterate [] (fun _ => true) (fun _ => 0) sampleSched 2).recurring = true ∧
    (fireIterate [] (fun _ => true) (fun _ => 0) sampleSched 2).end_at = none ∧
    (fireIterate [] (fun _ => true) (fun _ => 0) sampleSched 2).start_at =
      sampleSched.start_at + 2 * daySeconds ∧
    (schedule_email_fire [] (fireIterate [] (fun _ => true) (fun _ => 0) sampleSched 2)
      ((fun _ => true) 2) ((fun _ => 0) 2)).rearmed = true :=
  recurring_without_end_rearms_forever [] (fun _ => true) (fun _ => 0)
    sampleSched rfl rfl 2

/-- C3 counterexample: with SMTP_PORT set to a non-integer string,
send_email raises a ValueError to its caller (the int() conversion of
the port runs before the missing-configuration check and outside the
try block), refuting the claim that it never raises for every
environment configuration. -/
theorem send_email_raises_on_malformed_port :
    send_email badPortEnv true "to@example.test" "Hello" "Body" =
      Except.error "ValueError: invalid literal for int() with base 10" := by
  rfl

/-- C3 amended: provided SMTP_PORT is unset or parses as an integer,
send_email returns a boolean and never raises (missing configuration
and transport failures yield Except.ok false after printing the
message); send_sms returns a boolean and never raises for every
environment and transport outcome. -/
theorem senders_return_bool_when_port_parses (env : SmtpEnv) (senv : SmsEnv)
    (transportOk libInstalled smsOk : Bool)
    (to_address subject body to_number sms_body : String)
    (hport : (smtpPortOf env).isSome = true) :
    (∃ b : Bool, send_email env transportOk to_address subject body = Except.ok b) ∧
    (∃ b : Bool, send_sms senv libInstalled smsOk to_number sms_body = Except.ok b) := by
  constructor
  · obtain ⟨p, hp⟩ := Option.isSome_iff_exists.mp hport
    by_cases hmiss : (envFalsy env.smtp_server || envFalsy env.smtp_username ||
        envFalsy env.smtp_password) = true
    · exact ⟨false, by simp [send_email, hp, hmiss]⟩
    · exact ⟨transportOk, by simp [send_email, hp, hmiss]⟩
  · by_cases hmiss : (envFalsy senv.account_sid || envFalsy senv.auth_token ||
        envFalsy senv.phone_number) = true
    · exact ⟨false, by simp [send_sms, hmiss]⟩
    · cases libInstalled
      · exact ⟨false, by simp [send_sms, hmiss]⟩
      · exact ⟨smsOk, by simp [send_sms, hmiss]⟩

/-- C3 amended witness: a concrete environment with a parseable port and
missing credentials gets a boolean from both senders. -/
theorem senders_return_bool_when_port_parses_witness :
    ((smtpPortOf unconfiguredSmtpEnv).isSome = true) ∧
    ((∃ b : Bool, send_email unconfiguredSmtpEnv true "a@b.test" "s" "m" = Except.ok b) ∧
     (∃ b : Bool, send_sms unconfiguredSmsEnv true true "+15550100" "m" = Except.ok b)) :=
  ⟨by decide,
   senders_return_bool_when_port_parses unconfiguredSmtpEnv unconfiguredSmsEnv
     true true true "a@b.test" "s" "m" "+15550100" "m" (by decide)⟩

/-- C4: a POST to /contact/new whose (stripped) email equals the email
of an existing contact is rejected — the outcome is not a creation, the
form is re-rendered with a flash — and the Contact table is returned
unchanged. -/
theorem create_duplicate_email_rejected_unchanged
    (db : List Contact) (f : ContactForm) (newId : Nat)
    (hdup : ∃ c ∈ db, c.email = formText f.email) :
    (create_contact db f newId).1 ≠ CreateOutcome.created ∧
    (create_contact db f newId).2 = db := by
  have hany : db.any (fun c => c.email == formText f.email) = true := by
    obtain ⟨c, hc, he⟩ := hdup
    exact List.any_eq_true.mpr ⟨c, hc, by simp [he]⟩
  unfold create_contact
  split
  · exact ⟨by simp, rfl⟩
  · exact ⟨by simp, rfl⟩

/-- C4 witness: creating a contact with the email of the one existing
contact is rejected and leaves the table unchanged. -/
theorem create_duplicate_email_rejected_unchanged_witness :
    (∃ c ∈ [sampleContact 1 "a@x.test" ""], c.email = formText dupEmailEditForm.email) ∧
    ((create_contact [sampleContact 1 "a@x.test" ""] dupEmailEditForm 2).1 ≠
        CreateOutcome.created ∧
     (create_contact [sampleContact 1 "a@x.test" ""] dupEmailEditForm 2).2 =
        [sampleContact 1 "a@x.test" ""]) :=
  ⟨by decide,
   create_duplicate_email_rejected_unchanged [sampleContact 1 "a@x.test" ""]
     dupEmailEditForm 2 (by decide)⟩

/-- C5 counterexample: edit_contact performs no duplicate-email
pre-check, so an edit that sets a contact email to the email of another
contact takes a table with pairwise-distinct emails to one with a
duplicate — refuting the claim that every operation preserves
uniqueness through caller pre-checks. -/
theorem edit_contact_can_duplicate_email :
    emailsNodup [sampleContact 1 "a@x.test" "", sampleContact 2 "b@x.test" ""] = true ∧
    emailsNodup (edit_contact_db
      [sampleContact 1 "a@x.test" "", sampleContact 2 "b@x.test" ""]
      2 dupEmailEditForm) = false := by
  decide

/-- C5 amended: contact creation preserves pairwise-distinct emails — it
pre-checks for a duplicate before the write; the edit route performs no
such pre-check and can write a duplicate email at the application level
(only the database unique constraint stands in the way there). -/
theorem create_preserves_email_uniqueness
    (db : List Contact) (f : ContactForm) (newId : Nat)
    (h : emailsNodup db = true) :
    emailsNodup (create_contact db f newId).2 = true := by
  unfold create_contact
  split
  · exact h
  · split
    · exact h
    · rename_i hnot
      simp only [Bool.not_eq_true] at hnot
      exact emailsNodup_append_fresh db (newContactFromForm f newId) h hnot

/-- C5 amended witness: creating a contact with a duplicate email on a
concrete one-row table keeps emails pairwise distinct. -/
theorem create_preserves_email_uniqueness_witness :
    (emailsNodup [sampleContact 1 "a@x.test" ""] = true) ∧
    emailsNodup (create_contact [sampleContact 1 "a@x.test" ""]
      dupEmailEditForm 2).2 = true :=
  ⟨by decide,
   create_preserves_email_uniqueness [sampleContact 1 "a@x.test" ""]
     dupEmailEditForm 2 (by decide)⟩

/-- C6: when a numeric field of the edit form carries a value that
float() (or int() for rating) cannot parse, that field of the contact
keeps its prior value after the edit; edit_contact is total, so no
error reaches the user. -/
theorem edit_invalid_numeric_keeps_prior_value (c : Contact) (f : ContactForm) :
    (∀ s, f.potential_spend = some s → pyFloat s = none →
      (edit_contact c f).potential_spend = c.potential_spend) ∧
    (∀ s, f.accepted_spend = some s → pyFloat s = none →
      (edit_contact c f).accepted_spend = c.accepted_spend) ∧
    (∀ s, f.billed_amount = some s → pyFloat s = none →
      (edit_contact c f).billed_amount = c.billed_amount) ∧
    (∀ s, f.received_amount = some s → pyFloat s = none →
      (edit_contact c f).received_amount = c.received_amount) ∧
    (∀ s, f.rating = some s → pyInt s = none →
      (edit_contact c f).rating = c.rating) := by
  refine ⟨?_, ?_, ?_, ?_, ?_⟩ <;> intro s hs hp <;>
    simp [edit_contact, editFloat, editInt, hs, hp]

/-- C6 witness: editing a concrete contact with non-parseable values in
all five numeric fields leaves all five unchanged. -/
theorem edit_invalid_numeric_keeps_prior_value_witness :
    (edit_contact (sampleContact 1 "a@x.test" "") sampleEditForm).potential_spend =
      (sampleContact 1 "a@x.test" "").potential_spend ∧
    (edit_contact (sampleContact 1 "a@x.test" "") sampleEditForm).accepted_spend =
      (sampleContact 1 "a@x.test" "").accepted_spend ∧
    (edit_contact (sampleContact 1 "a@x.test" "") sampleEditForm).billed_amount =
      (sampleContact 1 "a@x.test" "").billed_amount ∧
    (edit_contact (sampleContact 1 "a@x.test" "") sampleEditForm).received_amount =
      (sampleContact 1 "a@x.test" "").received_amount ∧
    (edit_contact (sampleContact 1 "a@x.test" "") sampleEditForm).rating =
      (sampleContact 1 "a@x.test" "").rating :=
  ⟨(edit_invalid_numeric_keeps_prior_value (sampleContact 1 "a@x.test" "") sampleEditForm).1
      "abc" rfl (by decide),
   (edit_invalid_numeric_keeps_prior_value (sampleContact 1 "a@x.test" "") sampleEditForm).2.1
      "1.2.3" rfl (by decide),
   (edit_invalid_numeric_keeps_prior_value (sampleContact 1 "a@x.test" "") sampleEditForm).2.2.1
      "12x" rfl (by decide),
   (edit_invalid_numeric_keeps_prior_value (sampleContact 1 "a@x.test" "") sampleEditForm).2.2.2.1
      "--5" rfl (by decide),
   (edit_invalid_numeric_keeps_prior_value (sampleContact 1 "a@x.test" "") sampleEditForm).2.2.2.2
      "4.2" rfl (by decide)⟩

/-- C7 counterexample: a POST with channel email, an empty subject and a
parseable start_at is not rejected — it redirects, creates one
ScheduledEmail whose subject is the empty string, and arms a timer —
refuting the claim that every POST with channel email and empty subject
is rejected with the form re-rendered. -/
theorem schedule_with_empty_subject_accepted :
    emptySubjectScheduleOutcome.response = MsgResponse.redirectContact ∧
    emptySubjectScheduleOutcome.newScheduled.length = 1 ∧
    emptySubjectScheduleOutcome.armedTimer = true ∧
    (emptySubjectScheduleOutcome.newScheduled.map (fun s => s.subject)) = [""] := by
  decide

/-- C7 amended: for a POST that is a test send or carries no start_at,
channel email with an empty (stripped) subject is rejected — form
re-rendered, no sender invoked, no Message and no ScheduledEmail
created; for channel sms with a nonempty body the SMS sender is always
invoked with the contact phone field (empty-string fallback), never the
email.  A POST with channel email, a parseable start_at and an empty
subject instead creates a ScheduledEmail and succeeds. -/
theorem message_route_subject_and_sms_recipient (contact : Contact)
    (f : MessageForm) (emailOk smsOk : Bool) (newId : Nat) :
    ((f.start_at.getD "" = "" ∨ f.send_test = some "1") →
      f.channel = some "email" → pyStrip (f.subject.getD "") = "" →
      (send_message_route contact f emailOk smsOk newId).response = MsgResponse.renderForm ∧
      (send_message_route contact f emailOk smsOk newId).emailTo = none ∧
      (send_message_route contact f emailOk smsOk newId).smsTo = none ∧
      (send_message_route contact f emailOk smsOk newId).newMessages = [] ∧
      (send_message_route contact f emailOk smsOk newId).newScheduled = []) ∧
    (f.channel = some "sms" → pyStrip (f.body.getD "") ≠ "" →
      (send_message_route contact f emailOk smsOk newId).smsTo = some (pyOr contact.phone "") ∧
      (send_message_route contact f emailOk smsOk newId).emailTo = none) := by
  constructor
  · intro hsched hch hsub
    by_cases hbody : pyStrip (f.body.getD "") = ""
    · refine ⟨?_, ?_, ?_, ?_, ?_⟩ <;> simp [send_message_route, hch, hsub, hbody]
    · cases hts : f.send_test == some "1"
      · have hstart : f.start_at.getD "" = "" := by
          rcases hsched with h | h
          · exact h
          · rw [h] at hts; simp at hts
        refine ⟨?_, ?_, ?_, ?_, ?_⟩ <;>
          simp [send_message_route, hch, hsub, hbody, hts, hstart]
      · refine ⟨?_, ?_, ?_, ?_, ?_⟩ <;>
          simp [send_message_route, hch, hsub, hbody, hts]
  · intro hch hbody
    cases hts : f.send_test == some "1" <;>
      constructor <;> simp [send_message_route, hch, hbody, hts]

/-- C7 amended witness: a concrete immediate email POST with empty
subject is rejected with nothing sent or stored, and a concrete SMS
POST goes to the contact phone number. -/
theorem message_route_subject_and_sms_recipient_witness :
    ((send_message_route (sampleContact 1 "a@x.test" "+15550100")
        emailEmptySubjectForm true true 7).response = MsgResponse.renderForm ∧
     (send_message_route (sampleContact 1 "a@x.test" "+15550100")
        emailEmptySubjectForm true true 7).emailTo = none ∧
     (send_message_route (sampleContact 1 "a@x.test" "+15550100")
        emailEmptySubjectForm true true 7).smsTo = none ∧
     (send_message_route (sampleContact 1 "a@x.test" "+15550100")
        emailEmptySubjectForm true true 7).newMessages = [] ∧
     (send_message_route (sampleContact 1 "a@x.test" "+15550100")
        emailEmptySubjectForm true true 7).newScheduled = []) ∧
    ((send_message_route (sampleContact 1 "a@x.test" "+15550100")
        smsOnlyForm true true 7).smsTo =
          some (pyOr (sampleContact 1 "a@x.test" "+15550100").phone "") ∧
     (send_message_route (sampleContact 1 "a@x.test" "+15550100")
        smsOnlyForm true true 7).emailTo = none) :=
  ⟨(message_route_subject_and_sms_recipient (sampleContact 1 "a@x.test" "+15550100")
      emailEmptySubjectForm true true 7).1 (Or.inl rfl) rfl (by decide),
   (message_route_subject_and_sms_recipient (sampleContact 1 "a@x.test" "+15550100")
      smsOnlyForm true true 7).2 rfl (by decide)⟩

/-- C8: an authenticated user whose role, compared case-insensitively,
is neither master nor management is answered with a flash and a
redirect away from /contact/new, and the Contact table is unchanged. -/
theorem unprivileged_role_create_contact_redirected
    (u : User) (db : List Contact) (f : ContactForm) (newId : Nat)
    (h1 : pyLower u.role ≠ "master") (h2 : pyLower u.role ≠ "management") :
    create_contact_route (some u) db f newId = (CreateResponse.redirectIndex, db) := by
  unfold create_contact_route role_required
  have e1 : pyLower "master" = "master" := by decide
  have e2 : pyLower "management" = "management" := by decide
  simp [e1, e2, h1, h2]

/-- C8 witness: a user with role Engineer posting to /contact/new is
redirected and the one-row table is unchanged. -/
theorem unprivileged_role_create_contact_redirected_witness :
    create_contact_route (some (sampleUser "Engineer"))
      [sampleContact 1 "a@x.test" ""] dupEmailEditForm 2 =
      (CreateResponse.redirectIndex, [sampleContact 1 "a@x.test" ""]) :=
  unprivileged_role_create_contact_redirected (sampleUser "Engineer")
    [sampleContact 1 "a@x.test" ""] dupEmailEditForm 2 (by decide) (by decide)

/-- C9: at application start, when zero User rows exist exactly one user
is created, with username admin, role master and the fixed default
password; when at least one User exists the table is left unchanged. -/
theorem bootstrap_creates_default_master_iff_no_users (users : List User) :
    (users = [] →
      create_app_bootstrap users =
        [{ id := 1, username := "admin",
           password_hash := generate_password_hash "admin123",
           role := "master" }]) ∧
    (users ≠ [] → create_app_bootstrap users = users) := by
  constructor
  · intro h
    subst h
    rfl
  · intro h
    unfold create_app_bootstrap
    rw [if_neg]
    simpa [List.isEmpty_iff] using h

/-- C9 witness: bootstrap on an empty table yields exactly the default
master user; bootstrap on a nonempty table changes nothing. -/
theorem bootstrap_creates_default_master_iff_no_users_witness :
    (create_app_bootstrap [] =
      [{ id := 1, username := "admin",
         password_hash := generate_password_hash "admin123",
         role := "master" }]) ∧
    create_app_bootstrap [sampleUser "billing"] = [sampleUser "billing"] :=
  ⟨(bootstrap_creates_default_master_iff_no_users []).1 rfl,
   (bootstrap_creates_default_master_iff_no_users [sampleUser "billing"]).2
     (List.cons_ne_nil _ _)⟩

/-- C10: on a fire whose referenced contact exists, sent_at is
overwritten with the current time whatever boolean send_email returned
(the send result is universally quantified); and a recurring entry
whose next day is within end_at (or end_at is null) is re-armed for the
next day even when the referenced contact no longer exists, in which
case the sender is not invoked and sent_at is untouched. -/
theorem fire_overwrites_sent_at_and_reschedules_without_contact
    (contacts : List Contact) (s : ScheduledEmail) (ok : Bool) (now : Nat) :
    ((contacts.find? (fun c => c.id == s.contact_id)).isSome = true →
      (schedule_email_fire contacts s ok now).email.sent_at = some now ∧
      (schedule_email_fire contacts s ok now).invokedSend = true) ∧
    (contacts.find? (fun c => c.id == s.contact_id) = none →
      s.recurring = true →
      (s.end_at = none ∨ ∃ e, s.end_at = some e ∧ s.start_at + daySeconds ≤ e) →
      (schedule_email_fire contacts s ok now).rearmed = true ∧
      (schedule_email_fire contacts s ok now).email.start_at = s.start_at + daySeconds ∧
      (schedule_email_fire contacts s ok now).invokedSend = false ∧
      (schedule_email_fire contacts s ok now).email.sent_at = s.sent_at) := by
  constructor
  · intro h
    obtain ⟨c, hfind⟩ := Option.isSome_iff_exists.mp h
    simp only [schedule_email_fire, hfind]
    split <;> first | (split <;> exact ⟨rfl, rfl⟩) | exact ⟨rfl, rfl⟩
  · intro hnone hrec hwithin
    rcases hwithin with hend | ⟨e, hend, hle⟩
    · simp [schedule_email_fire, hnone, hrec, hend]
    · simp [schedule_email_fire, hnone, hrec, hend, hle]

/-- C10 witness: with the contact present sent_at is overwritten even
though send_email returned False; with the contact absent the recurring
entry is still re-armed for the next day. -/
theorem fire_overwrites_sent_at_and_reschedules_without_contact_witness :
    ((schedule_email_fire [sampleContact 1 "a@x.test" ""] sampleSched false 50).email.sent_at = some 50 ∧
     (schedule_email_fire [sampleContact 1 "a@x.test" ""] sampleSched false 50).invokedSend = true) ∧
    ((schedule_email_fire [] sampleSched false 50).rearmed = true ∧
     (schedule_email_fire [] sampleSched false 50).email.start_at = sampleSched.start_at + daySeconds ∧
     (schedule_email_fire [] sampleSched false 50).invokedSend = false ∧
     (schedule_email_fire [] sampleSched false 50).email.sent_at = sampleSched.sent_at) :=
  ⟨(fire_overwrites_sent_at_and_reschedules_without_contact
      [sampleContact 1 "a@x.test" ""] sampleSched false 50).1 (by decide),
   (fire_overwrites_sent_at_and_reschedules_without_contact
      [] sampleSched false 50).2 rfl rfl (Or.inl rfl)⟩

end Crm
